import Mathlib

/-!
Verification development for the predictive-analytics core of the
marketing_model repository (src/ai_models.py, class PromotionAnalyzer).

The Python source is shallowly embedded: numeric columns are ℚ, tables are
lists of structures, the mutable analyzer object is threaded explicitly, and
Python exceptions are `Except`.  Calls into the external estimator libraries
(sklearn, statsmodels) are the only parts not written out here: they are
collected in an `MLLib` record of fit outcomes, so that every theorem either
quantifies over the library behaviour or instantiates it with a concrete
record whose behaviour matches the documented behaviour of the library call
it stands for.  Everything the repository itself computes (merging, feature
derivation, guards, model selection loops, slot bookkeeping, inference
arithmetic) is translated directly from the source.
-/

namespace MarketingModel

/-! ### Small executable helpers (insertion sort, median, label encoding) -/

/-- Insert into a sorted list using a boolean comparison. -/
def insertLe {α : Type} (le : α → α → Bool) (x : α) : List α → List α
  | [] => [x]
  | y :: ys => if le x y then x :: y :: ys else y :: insertLe le x ys

/-- Insertion sort with a boolean comparison (stable, ascending). -/
def sortLe {α : Type} (le : α → α → Bool) : List α → List α
  | [] => []
  | x :: xs => insertLe le x (sortLe le xs)

/-- pandas `Series.median`: sort, middle element for odd length, mean of the
two middle elements for even length (0 for an empty series). -/
def median (l : List ℚ) : ℚ :=
  let s := sortLe (fun a b => decide (a ≤ b)) l
  if s.length = 0 then 0
  else if s.length % 2 = 1 then s.getD (s.length / 2) 0
  else (s.getD (s.length / 2 - 1) 0 + s.getD (s.length / 2) 0) / 2

/-- sklearn `LabelEncoder.fit`: the class list is the sorted distinct values
of the fitted column. -/
def leClasses (cats : List String) : List String :=
  sortLe (fun a b => decide (a ≤ b)) cats.dedup

/-- sklearn `LabelEncoder.transform` on one value: its position in the class
list, or an error (`ValueError: unseen label`) when the value is not a class.
`none` models the raised `ValueError`. -/
def leTransform (classes : List String) (c : String) : Option Nat :=
  match classes with
  | [] => none
  | x :: xs => if x == c then some 0 else (leTransform xs c).map Nat.succ

/-! ### Data model (rows of the three input tables, 6 EXTERNAL INTERFACES) -/

/-- A row of the products table.  The name column is never read by the
analytics core and is omitted; a missing category (NULL) is `none`. -/
structure Product where
  id : Nat
  price : ℚ
  category : Option String

/-- A row of the promotions table (name and active flag unused by the core). -/
structure Promotion where
  id : Nat
  discount : ℚ
  product_id : Option Nat

/-- A row of the sales table.  `promotion_id = none` is a sale without a
promotion; `date` is an abstract day number (the source parses dates with
`pd.to_datetime`; only grouping, ordering and distinctness of dates matter
to the embedded operations, so days since an epoch suffice). -/
structure Sale where
  product_id : Nat
  promotion_id : Option Nat
  quantity : ℚ
  revenue : ℚ
  date : Nat

/-- One row of the merged feature table built by `prepare_data`.
`none` in `price` / `discount` / `category` / `discount_amount` models a NaN
produced by an unmatched left join (pandas propagates NaN through arithmetic,
including `NaN * 0`, which the `Option` bind reproduces).  The derived
month / day-of-week / quarter columns are not materialised: no embedded
operation reads them (the feature lists of the four models in the source use
only the columns below). -/
structure FeatureRow where
  price : Option ℚ
  discount : Option ℚ
  category : Option String
  promotion_id : Option Nat
  quantity : ℚ
  revenue : ℚ
  date : Nat
  has_promotion : Nat
  discount_amount : Option ℚ
  net_revenue : ℚ
  revenue_per_unit : ℚ
  category_encoded : Nat

/-- `PromotionAnalyzer.prepare_data`: left-join sales with products on
`product_id = id` and with promotions on `promotion_id = id` (table ids are
primary keys, so the first match is the only match), then derive
`has_promotion`, `discount_amount = price * discount / 100 * has_promotion`,
`net_revenue = revenue` (the source assigns the revenue column unchanged),
`revenue_per_unit = revenue / quantity`, and the label-encoded category
(missing categories become the string Unknown before encoding).
Returns the feature table together with the fitted encoder classes. -/
def prepare_data (products : List Product) (promotions : List Promotion)
    (sales : List Sale) : List FeatureRow × List String :=
  let rowCat : Sale → String := fun s =>
    ((products.find? (fun p => p.id == s.product_id)).bind
      (fun p => p.category)).getD "Unknown"
  let classes := leClasses (sales.map rowCat)
  (sales.map (fun s =>
    let product? := products.find? (fun p => p.id == s.product_id)
    let promo? := s.promotion_id.bind
      (fun pid => promotions.find? (fun pr => pr.id == pid))
    let price := product?.map (fun p => p.price)
    let discount := promo?.map (fun pr => pr.discount)
    let category := product?.bind (fun p => p.category)
    let has_promotion : Nat := if s.promotion_id.isSome then 1 else 0
    { price := price
      discount := discount
      category := category
      promotion_id := s.promotion_id
      quantity := s.quantity
      revenue := s.revenue
      date := s.date
      has_promotion := has_promotion
      discount_amount := do
        let p ← price
        let d ← discount
        pure (p * d / 100 * (has_promotion : ℚ))
      net_revenue := s.revenue
      revenue_per_unit := s.revenue / s.quantity
      category_encoded := (leTransform classes (category.getD "Unknown")).getD 0 }),
   classes)

/-- Daily revenue series: `data.groupby('date')['revenue'].sum()` sorted by
date — one entry per observed date, value = sum of that date's revenues.
No calendar reindexing happens in the source. -/
def dailyRevenue (data : List FeatureRow) : List (Nat × ℚ) :=
  (sortLe (fun a b => decide (a ≤ b)) (data.map (fun r => r.date)).dedup).map
    (fun d => (d, ((data.filter (fun r => r.date == d)).map
      (fun r => r.revenue)).sum))

/-! ### The external-library boundary -/

/-- Outcome of evaluating one regression candidate inside
`train_revenue_model`: the fitted predict function together with the
cross-validation score and the held-out test-split r2 score, all produced by
external sklearn calls (`train_test_split`, `cross_val_score`, `fit`,
`r2_score`). -/
structure RegCandidate where
  name : String
  predict : List ℚ → ℚ
  cvScore : ℚ
  testScore : ℚ

/-- Outcome of fitting one classifier candidate inside
`train_promotion_success_model`: predict-proba function and held-out
accuracy. -/
structure ClsFitted where
  name : String
  predictProba : List ℚ → ℚ
  accuracy : ℚ

/-- A fitted time-series model (ARIMA result object or ExponentialSmoothing
result object); only its forecast behaviour is observable. -/
structure TSModel where
  forecastFn : Nat → List ℚ

/-- Which algorithm the time-series slot holds. -/
inductive TSStored where
  | arima (m : TSModel)
  | expsmooth (m : TSModel)

/-- The behaviour of the external estimator libraries, as observed by the
repository code.  `regCandidates X y` gives the evaluated outcomes of the
three regression candidates in their dict-enumeration order
(linear_regression, random_forest, gradient_boosting); `clsCandidates X y`
gives the fit outcomes of the two classifier candidates in order
(logistic_regression, random_forest) — a fit that raises (for example
sklearn LogisticRegression on single-class labels) is `.error`.
`fitARIMA order series` and `fitExpSmoothing series` are the statsmodels
fits, which the source wraps in try/except.  `fitLinReg X y` is the
full-data linear fit of the price-optimization slot. -/
structure MLLib where
  regCandidates : List (List ℚ) → List ℚ → RegCandidate × RegCandidate × RegCandidate
  clsCandidates : List (List ℚ) → List Nat →
    Except String ClsFitted × Except String ClsFitted
  fitARIMA : Nat × Nat × Nat → List ℚ → Except String TSModel
  fitExpSmoothing : List ℚ → Except String TSModel
  fitLinReg : List (List ℚ) → List ℚ → (List ℚ → ℚ)

/-! ### The model-selection loops -/

/-- `best_score < s` where `none` models the initial
`best_score = -float('inf')` of `train_revenue_model`. -/
def ltOpt (bs : Option ℚ) (s : ℚ) : Bool :=
  match bs with
  | none => true
  | some b => decide (b < s)

/-- The candidate-selection loop shared by the two trainers: iterate the
candidates, replacing the running best exactly when the candidate's score is
strictly greater than the running best score (`if test_score > best_score`).
State is (best_model, best_score); `best_score = none` is minus infinity. -/
def selectLoopB {α : Type} (score : α → ℚ) :
    List α → Option α → Option ℚ → Option α × Option ℚ
  | [], best, bs => (best, bs)
  | c :: rest, best, bs =>
    if ltOpt bs (score c) then selectLoopB score rest (some c) (some (score c))
    else selectLoopB score rest best bs

/-- The classifier loop of `train_promotion_success_model`: each iteration
first runs the external fit (which may raise, propagating out of the
trainer — the source has no try/except here), then compares accuracies as in
`selectLoopB`. -/
def promoLoop : List (Except String ClsFitted) → Option ClsFitted → Option ℚ →
    Except String (Option ClsFitted × Option ℚ)
  | [], best, bs => .ok (best, bs)
  | o :: rest, best, bs =>
    match o with
    | .error e => .error e
    | .ok f =>
      if ltOpt bs f.accuracy then promoLoop rest (some f) (some f.accuracy)
      else promoLoop rest best bs

/-! ### The four slot trainers -/

/-- Feature vector of the revenue model, in the order of the source feature
list: price, discount_amount, quantity, category_encoded, has_promotion
(NaN filled with 0 by `fillna(0)`). -/
def revFeatures (r : FeatureRow) : List ℚ :=
  [r.price.getD 0, r.discount_amount.getD 0, r.quantity,
   (r.category_encoded : ℚ), (r.has_promotion : ℚ)]

/-- `train_revenue_model`: guard `len(X) < 5`, evaluate the three candidates,
run the selection loop with `best_score = -inf`, and write the winner into
the `revenue_prediction` slot.  Result `none` = early return (no slot
write); `some v` = slot assigned `v` (which is the dict value, itself an
`Option` because the loop can finish with `best_model = None`). -/
def train_revenue_model (lib : MLLib) (data : List FeatureRow) :
    Option (Option RegCandidate) :=
  let X := data.map revFeatures
  if X.length < 5 then none
  else
    let cs := lib.regCandidates X (data.map (fun r => r.revenue))
    some (selectLoopB (fun c => c.testScore) [cs.1, cs.2.1, cs.2.2] none none).1

/-- The promotion subset `data[data['has_promotion'] == 1]`. -/
def promoRows (data : List FeatureRow) : List FeatureRow :=
  data.filter (fun r => r.has_promotion == 1)

/-- The constructed binary target: `success = (revenue > median(revenue))`
over the promotion subset. -/
def promoLabels (data : List FeatureRow) : List Nat :=
  let promo := promoRows data
  let med := median (promo.map (fun r => r.revenue))
  promo.map (fun r => if med < r.revenue then 1 else 0)

/-- Feature vector of the promotion-success model, in source order:
discount_amount, price, category_encoded, quantity (NaN filled with 0). -/
def promoFeatures (r : FeatureRow) : List ℚ :=
  [r.discount_amount.getD 0, r.price.getD 0, (r.category_encoded : ℚ),
   r.quantity]

/-- `train_promotion_success_model`: guard `len(promo_data) < 10` (early
return, no write, no raise), build the median-split labels, fit the two
classifier candidates inside the selection loop with `best_score = 0`
(a raising fit propagates), and write the loop's best into the
`promotion_success` slot — which is `None` when no accuracy ever exceeded
the initial 0. -/
def train_promotion_success_model (lib : MLLib) (data : List FeatureRow) :
    Except String (Option (Option ClsFitted)) :=
  let promo := promoRows data
  if promo.length < 10 then .ok none
  else
    let os := lib.clsCandidates (promo.map promoFeatures) (promoLabels data)
    match promoLoop [os.1, os.2] none (some 0) with
    | .error e => .error e
    | .ok (best, _) => .ok (some best)

/-- `train_time_series_model`: aggregate daily revenue, guard
`len(daily_revenue) < 10`, try the ARIMA(1,1,1) fit, on exception try the
ExponentialSmoothing fit, on a second exception give up.  `none` = no slot
write; this trainer never raises (both fits are inside try/except). -/
def train_time_series_model (lib : MLLib) (data : List FeatureRow) :
    Option TSStored :=
  let daily := dailyRevenue data
  if daily.length < 10 then none
  else
    match lib.fitARIMA (1, 1, 1) (daily.map Prod.snd) with
    | .ok m => some (.arima m)
    | .error _ =>
      match lib.fitExpSmoothing (daily.map Prod.snd) with
      | .ok m => some (.expsmooth m)
      | .error _ => none

/-- Feature vector of the price-optimization model, in source order:
price, quantity, revenue, discount_amount (NaN filled with 0). -/
def priceOptFeatures (r : FeatureRow) : List ℚ :=
  [r.price.getD 0, r.quantity, r.revenue, r.discount_amount.getD 0]

/-- `train_price_optimization_model`: guard `len(X) < 5`, fit a single
linear regression on the full data and store its predict function. -/
def train_price_optimization_model (lib : MLLib) (data : List FeatureRow) :
    Option (List ℚ → ℚ) :=
  let X := data.map priceOptFeatures
  if X.length < 5 then none
  else some (lib.fitLinReg X (data.map (fun r => r.revenue)))

/-! ### The analyzer object and the training pipeline -/

/-- The `self.models` dict, one field per slot key.  The outer `Option` is
key presence (`'slot' in self.models`); for the two selection-loop slots the
stored dict value is itself an `Option`, because the source can assign
`self.models[k] = None` when the loop never selected a candidate. -/
structure Models where
  revenue_prediction : Option (Option RegCandidate) := none
  promotion_success : Option (Option ClsFitted) := none
  time_series : Option TSStored := none
  price_optimization : Option (List ℚ → ℚ) := none

/-- The `PromotionAnalyzer` object state: the models dict, the fitted
category label encoder (classes list), and the aggregate `is_trained`
flag. -/
structure Analyzer where
  models : Models := {}
  label_encoders_category : Option (List String) := none
  is_trained : Bool := false

/-- Apply a slot trainer result to the revenue slot. -/
def writeRevenue (a : Analyzer) : Option (Option RegCandidate) → Analyzer
  | none => a
  | some v => { a with models.revenue_prediction := some v }

/-- Apply a slot trainer result to the promotion-success slot. -/
def writePromotion (a : Analyzer) : Option (Option ClsFitted) → Analyzer
  | none => a
  | some v => { a with models.promotion_success := some v }

/-- Apply a slot trainer result to the time-series slot. -/
def writeTimeSeries (a : Analyzer) : Option TSStored → Analyzer
  | none => a
  | some v => { a with models.time_series := some v }

/-- Apply a slot trainer result to the price-optimization slot. -/
def writePriceOpt (a : Analyzer) : Option (List ℚ → ℚ) → Analyzer
  | none => a
  | some v => { a with models.price_optimization := some v }

/-- `train_models`: prepare the data (which fits and stores the category
encoder), return early when the merged table has fewer than 5 rows, then run
the four slot trainers in sequence and finally set `is_trained = True`.
There is no try/except around the slot trainers, so an exception raised by
the promotion trainer propagates; `.error (e, a)` carries the analyzer state
at the moment of the raise, matching the in-place mutation of the Python
object (slots written before the raise stay written). -/
def train_models (lib : MLLib) (a : Analyzer) (products : List Product)
    (promotions : List Promotion) (sales : List Sale) :
    Except (String × Analyzer) Analyzer :=
  let pd := prepare_data products promotions sales
  let data := pd.1
  let a1 : Analyzer := { a with label_encoders_category := some pd.2 }
  if data.length < 5 then .ok a1
  else
    let a2 := writeRevenue a1 (train_revenue_model lib data)
    match train_promotion_success_model lib data with
    | .error e => .error (e, a2)
    | .ok w =>
      let a3 := writePromotion a2 w
      let a4 := writeTimeSeries a3 (train_time_series_model lib data)
      let a5 := writePriceOpt a4 (train_price_optimization_model lib data)
      .ok { a5 with is_trained := true }

/-! ### Inference operations -/

/-- How an inference call can fail: model key absent (`untrained`), category
not in the encoder classes (`LabelEncoder.transform` raises ValueError,
caught by the surrounding except), or the model key holding `None` (the
`.predict` attribute access raises, likewise caught). -/
inductive PredError where
  | untrained
  | unseenCategory
  | noneModel
  deriving DecidableEq

/-- `revenue_prediction` (inference): check the slot key, encode the
category through the stored encoder (unseen category raises — no default is
substituted when an encoder exists; `category_encoded = 0` is used only when
no encoder was ever fitted), derive `discount_amount = price * discount /
100` and `has_promotion = 1 if discount > 0 else 0`, and return the raw
model prediction on [price, discount_amount, quantity, category_encoded,
has_promotion].  The source applies no clamping to the prediction. -/
def revenue_prediction (a : Analyzer) (price discount quantity : ℚ)
    (category : String) : Except PredError ℚ :=
  match a.models.revenue_prediction with
  | none => .error .untrained
  | some stored =>
    let enc : Except PredError Nat :=
      match a.label_encoders_category with
      | some classes =>
        match leTransform classes category with
        | some i => .ok i
        | none => .error .unseenCategory
      | none => .ok 0
    match enc with
    | .error e => .error e
    | .ok category_encoded =>
      let discount_amount := price * discount / 100
      let has_promotion : ℚ := if 0 < discount then 1 else 0
      match stored with
      | none => .error .noneModel
      | some m =>
        .ok (m.predict [price, discount_amount, quantity,
          (category_encoded : ℚ), has_promotion])

/-- The five candidate prices generated by `price_optimization`. -/
def testPrices (current_price : ℚ) : List ℚ :=
  [current_price * (9/10), current_price * (95/100), current_price,
   current_price * (105/100), current_price * (11/10)]

/-- One iteration of the price-testing loop: skip the candidate equal to the
current price; otherwise estimate the demand response with the fixed
elasticity constant -0.5, predict revenue with the stored model on
[test_price, new_quantity, current_revenue, 0], and keep the candidate if
its predicted revenue beats the running best. -/
def priceStep (m : List ℚ → ℚ) (current_price current_quantity
    current_revenue : ℚ) (best : ℚ × ℚ) (test_price : ℚ) : ℚ × ℚ :=
  if test_price ≠ current_price then
    let price_change := (test_price - current_price) / current_price
    let quantity_change := -(1/2 : ℚ) * price_change
    let new_quantity := current_quantity * (1 + quantity_change)
    let predicted := m [test_price, new_quantity, current_revenue, 0]
    if best.2 < predicted then (test_price, predicted) else best
  else best

/-- `price_optimization` (inference): requires the slot; folds the candidate
prices over `priceStep` starting from (current_price, current_revenue) and
returns (best_price, best_revenue).  `none` = slot untrained. -/
def price_optimization (a : Analyzer)
    (current_price current_quantity current_revenue : ℚ) : Option (ℚ × ℚ) :=
  match a.models.price_optimization with
  | none => none
  | some m =>
    some ((testPrices current_price).foldl
      (priceStep m current_price current_quantity current_revenue)
      (current_price, current_revenue))

/-! ### Specification-side definitions

These are written from the words of the specification, to be compared with
the behaviour of the embedded source code. -/

/-- Maximum of a list of scores (`none` for the empty list). -/
def maxOpt (l : List ℚ) : Option ℚ :=
  l.foldr (fun s m => match m with | none => some s | some b => some (max s b)) none

/-- `bs < m` on optional scores: `none` on the left is minus infinity, and
nothing is below an absent maximum. -/
def ltOptOpt (bs m : Option ℚ) : Bool :=
  match m with
  | none => false
  | some s => ltOpt bs s

/-- The selection rule stated by the specification: the candidate with the
best score, ties broken in favour of the first-enumerated candidate — i.e.
the first list element attaining the maximal score. -/
def firstArgmax {α : Type} (score : α → ℚ) (l : List α) : Option α :=
  l.find? (fun c => decide (some (score c) = maxOpt (l.map score)))

/-- A fitted linear model: intercept plus dot product with the weights.
Used to realise concrete trained regression models in scenarios. -/
def linPredict (w : List ℚ) (b : ℚ) (xs : List ℚ) : ℚ :=
  b + ((w.zip xs).map (fun p => p.1 * p.2)).sum

/-- The three evaluated revenue candidates of `train_revenue_model` as a
list, in their dict-enumeration order. -/
def revenueCandidateList (lib : MLLib) (data : List FeatureRow) :
    List RegCandidate :=
  [(lib.regCandidates (data.map revFeatures) (data.map (fun r => r.revenue))).1,
   (lib.regCandidates (data.map revFeatures) (data.map (fun r => r.revenue))).2.1,
   (lib.regCandidates (data.map revFeatures) (data.map (fun r => r.revenue))).2.2]

/-! ### Concrete scenario fixtures -/

/-- A single product: id 1, price 100, category Electronics. -/
def oneProduct : List Product :=
  [{ id := 1, price := 100, category := some "Electronics" }]

/-- A single promotion: id 1, 20 percent discount on product 1. -/
def onePromotion : List Promotion :=
  [{ id := 1, discount := 20, product_id := some 1 }]

/-- 11 promoted sales with identical revenue on 11 distinct dates (the
median-split label construction degenerates to a single class on them). -/
def elevenEqualSales : List Sale :=
  (List.range 11).map (fun i =>
    { product_id := 1, promotion_id := some 1, quantity := 1, revenue := 160, date := i })

/-- 11 unpromoted sales on 11 distinct dates. -/
def elevenPlainSales : List Sale :=
  (List.range 11).map (fun i =>
    { product_id := 1, promotion_id := none, quantity := 1, revenue := 160, date := i })

/-- A three-row sales table (below every training minimum). -/
def threeSales : List Sale :=
  (List.range 3).map (fun i =>
    { product_id := 1, promotion_id := none, quantity := 1, revenue := 100, date := i })

/-- One promoted sale: quantity 2, revenue 160, so the derived row has
`discount_amount = 100 * 20 / 100 = 20`. -/
def oneSale : List Sale :=
  [{ product_id := 1, promotion_id := some 1, quantity := 2, revenue := 160, date := 0 }]

/-- Observed sale dates with a calendar gap: 10 distinct days between day 0
and day 10, with day 9 unobserved. -/
def gapDates : List Nat := [0, 1, 2, 3, 4, 5, 6, 7, 8, 10]

/-- One sale per date of `gapDates`. -/
def gapSales : List Sale :=
  gapDates.map (fun d =>
    { product_id := 1, promotion_id := none, quantity := 1, revenue := 100, date := d })

/-- A fitted regression candidate used where the concrete predictions do not
matter. -/
def dummyReg : RegCandidate :=
  { name := "linear_regression", predict := fun _ => 0, cvScore := 1, testScore := 1 }

/-- A fitted classifier with held-out accuracy exactly 0 (every test
prediction wrong). -/
def zeroAccLogistic : ClsFitted :=
  { name := "logistic_regression", predictProba := fun _ => 0, accuracy := 0 }

/-- The second zero-accuracy classifier candidate. -/
def zeroAccForest : ClsFitted :=
  { name := "random_forest", predictProba := fun _ => 0, accuracy := 0 }

/-- Library behaviour: every fit succeeds, both classifier candidates score
held-out accuracy 0. -/
def libAccZero : MLLib :=
  { regCandidates := fun _ _ => (dummyReg, dummyReg, dummyReg)
    clsCandidates := fun _ _ => (.ok zeroAccLogistic, .ok zeroAccForest)
    fitARIMA := fun _ _ => .ok { forecastFn := fun _ => [] }
    fitExpSmoothing := fun _ => .ok { forecastFn := fun _ => [] }
    fitLinReg := fun _ _ => fun _ => 0 }

/-- Library behaviour reproducing the documented sklearn LogisticRegression
failure: fitting raises when the labels contain a single class (the solver
needs at least two classes).  All other fits succeed. -/
def libPromoFail : MLLib :=
  { regCandidates := fun _ _ => (dummyReg, dummyReg, dummyReg)
    clsCandidates := fun _ y =>
      (if (y.all (fun v => v == 0)) || (y.all (fun v => v == 1)) then
        .error "LogisticRegression: the solver needs samples of at least 2 classes"
       else .ok zeroAccLogistic, .ok zeroAccForest)
    fitARIMA := fun _ _ => .ok { forecastFn := fun _ => [] }
    fitExpSmoothing := fun _ => .ok { forecastFn := fun _ => [] }
    fitLinReg := fun _ _ => fun _ => 0 }

/-- Library behaviour where the ARIMA fit raises and the
ExponentialSmoothing fit succeeds. -/
def libArimaFail : MLLib :=
  { regCandidates := fun _ _ => (dummyReg, dummyReg, dummyReg)
    clsCandidates := fun _ _ => (.ok zeroAccLogistic, .ok zeroAccForest)
    fitARIMA := fun _ _ => .error "ARIMA failed to converge"
    fitExpSmoothing := fun _ => .ok { forecastFn := fun _ => [] }
    fitLinReg := fun _ _ => fun _ => 0 }

/-- Library behaviour where both time-series fits raise. -/
def libBothTSFail : MLLib :=
  { regCandidates := fun _ _ => (dummyReg, dummyReg, dummyReg)
    clsCandidates := fun _ _ => (.ok zeroAccLogistic, .ok zeroAccForest)
    fitARIMA := fun _ _ => .error "ARIMA failed to converge"
    fitExpSmoothing := fun _ => .error "ExponentialSmoothing failed to converge"
    fitLinReg := fun _ _ => fun _ => 0 }

/-- Observable slot information of a training run that raised: presence of
the revenue, time-series and price slots, and the `is_trained` flag, read
from the analyzer state carried by the exception. -/
def errSlotInfo : Except (String × Analyzer) Analyzer → Option (Bool × Bool × Bool × Bool)
  | .error (_, a) => some (a.models.revenue_prediction.isSome,
      a.models.time_series.isSome, a.models.price_optimization.isSome, a.is_trained)
  | .ok _ => none

/-- Observable information of a successful training run: the `is_trained`
flag and presence of the promotion-success slot. -/
def okInfo : Except (String × Analyzer) Analyzer → Option (Bool × Bool)
  | .ok a => some (a.is_trained, a.models.promotion_success.isSome)
  | .error _ => none

/-- A realisable trained linear revenue model (weight 1 on the price
feature, intercept -200): it predicts price - 200. -/
def negModel : RegCandidate :=
  { name := "linear_regression", predict := linPredict [1, 0, 0, 0, 0] (-200),
    cvScore := 1, testScore := 1 }

/-- An analyzer whose revenue slot holds `negModel` and whose encoder knows
the single category Electronics. -/
def negAnalyzer : Analyzer :=
  { models := { revenue_prediction := some (some negModel) }
    label_encoders_category := some ["Electronics"]
    is_trained := true }

/-- An analyzer with a trained price-optimization model that predicts 0 for
every input. -/
def aPriceW : Analyzer :=
  { models := { price_optimization := some (fun _ => 0) } }


/-! ### Supporting lemmas -/

theorem maxOpt_cons (a : ℚ) (l : List ℚ) :
    maxOpt (a :: l) =
      some (match maxOpt l with | none => a | some b => max a b) := by
  rcases h : maxOpt l with _ | b <;> simp [maxOpt] at h ⊢ <;> simp [maxOpt, h]

/-- Characterization of the selection loop: starting from running best score
`bs`, it returns the first candidate attaining the maximal score when that
maximum exceeds `bs`, and leaves the initial best otherwise. -/
theorem selectLoopB_fst {α : Type} (score : α → ℚ) :
    ∀ (l : List α) (best : Option α) (bs : Option ℚ),
      (selectLoopB score l best bs).1 =
        if ltOptOpt bs (maxOpt (l.map score)) then
          l.find? (fun c => decide (some (score c) = maxOpt (l.map score)))
        else best := by
  intro l
  induction l with
  | nil => intro best bs; simp [selectLoopB, maxOpt, ltOptOpt]
  | cons c rest ih =>
    intro best bs
    rcases hr : maxOpt (List.map score rest) with _ | b
    · rcases bs with _ | v
      · have hstep : selectLoopB score (c :: rest) best none =
            selectLoopB score rest (some c) (some (score c)) := by
          simp [selectLoopB, ltOpt]
        rw [hstep, ih, hr]
        simp [ltOptOpt, ltOpt, List.map_cons, maxOpt_cons, hr, List.find?]
      · by_cases hv : v < score c
        · have hstep : selectLoopB score (c :: rest) best (some v) =
              selectLoopB score rest (some c) (some (score c)) := by
            simp [selectLoopB, ltOpt, hv]
          rw [hstep, ih, hr]
          simp [ltOptOpt, ltOpt, hv, List.map_cons, maxOpt_cons, hr, List.find?]
        · have hstep : selectLoopB score (c :: rest) best (some v) =
              selectLoopB score rest best (some v) := by
            simp [selectLoopB, ltOpt, hv]
          rw [hstep, ih, hr]
          simp [ltOptOpt, ltOpt, hv, List.map_cons, maxOpt_cons, hr]
    · rcases bs with _ | v
      · have hstep : selectLoopB score (c :: rest) best none =
            selectLoopB score rest (some c) (some (score c)) := by
          simp [selectLoopB, ltOpt]
        rw [hstep, ih, hr]
        by_cases hcb : score c < b
        · have hmax : max (score c) b = b := max_eq_right hcb.le
          simp [List.map_cons, maxOpt_cons, hr, hmax, ltOptOpt, ltOpt, hcb,
            List.find?, ne_of_lt hcb]
        · have hbc : b ≤ score c := not_lt.mp hcb
          have hmax : max (score c) b = score c := max_eq_left hbc
          simp [List.map_cons, maxOpt_cons, hr, hmax, ltOptOpt, ltOpt, hcb,
            List.find?]
      · by_cases hv : v < score c
        · have hstep : selectLoopB score (c :: rest) best (some v) =
              selectLoopB score rest (some c) (some (score c)) := by
            simp [selectLoopB, ltOpt, hv]
          rw [hstep, ih, hr]
          by_cases hcb : score c < b
          · have hmax : max (score c) b = b := max_eq_right hcb.le
            have hvb : v < b := hv.trans hcb
            simp [List.map_cons, maxOpt_cons, hr, hmax, ltOptOpt, ltOpt, hcb, hvb,
              List.find?, ne_of_lt hcb]
          · have hbc : b ≤ score c := not_lt.mp hcb
            have hmax : max (score c) b = score c := max_eq_left hbc
            simp [List.map_cons, maxOpt_cons, hr, hmax, ltOptOpt, ltOpt, hcb, hv,
              List.find?]
        · have hsv : score c ≤ v := not_lt.mp hv
          have hstep : selectLoopB score (c :: rest) best (some v) =
              selectLoopB score rest best (some v) := by
            simp [selectLoopB, ltOpt, hv]
          rw [hstep, ih, hr]
          by_cases hvb : v < b
          · have hcb : score c < b := lt_of_le_of_lt hsv hvb
            have hmax : max (score c) b = b := max_eq_right hcb.le
            simp [List.map_cons, maxOpt_cons, hr, hmax, ltOptOpt, ltOpt, hvb,
              List.find?, ne_of_lt hcb]
          · have hvm : ¬ v < max (score c) b := by
              rw [lt_max_iff]
              exact fun h => h.elim hv hvb
            simp [List.map_cons, maxOpt_cons, hr, ltOptOpt, ltOpt, hvb, hvm]

theorem maxOpt_mem : ∀ (l : List ℚ) (q : ℚ), maxOpt l = some q → q ∈ l := by
  intro l
  induction l with
  | nil => intro q h; simp [maxOpt] at h
  | cons a t ih =>
    intro q h
    rw [maxOpt_cons] at h
    rcases ht : maxOpt t with _ | b
    · rw [ht] at h
      simp at h
      simp [h]
    · rw [ht] at h
      simp at h
      rcases max_choice a b with hm | hm
      · rw [hm] at h
        simp [h]
      · rw [hm] at h
        rw [← h]
        exact List.mem_cons_of_mem a (ih b ht)

theorem firstArgmax_cons_ne_none {α : Type} (score : α → ℚ) (c : α)
    (rest : List α) : firstArgmax score (c :: rest) ≠ none := by
  have hq : maxOpt (List.map score (c :: rest)) =
      some (match maxOpt (List.map score rest) with
            | none => score c | some b => max (score c) b) := by
    rw [List.map_cons, maxOpt_cons]
  set q := (match maxOpt (List.map score rest) with
            | none => score c | some b => max (score c) b) with hqdef
  have hm : q ∈ List.map score (c :: rest) := maxOpt_mem _ _ hq
  obtain ⟨x, hx, hxq⟩ := List.mem_map.mp hm
  intro hnone
  rw [firstArgmax, List.find?_eq_none] at hnone
  have hxx := hnone x hx
  rw [hq] at hxx
  simp [hxq] at hxx

/-- When every classifier fit succeeds, the classifier loop is the plain
selection loop on the fitted candidates. -/
theorem promoLoop_map_ok :
    ∀ (fs : List ClsFitted) (best : Option ClsFitted) (bs : Option ℚ),
      promoLoop (fs.map Except.ok) best bs =
        .ok (selectLoopB (fun f => f.accuracy) fs best bs) := by
  intro fs
  induction fs with
  | nil => intro best bs; rfl
  | cons f t ih =>
    intro best bs
    cases hb : ltOpt bs f.accuracy <;> simp [promoLoop, selectLoopB, hb, ih]

theorem mem_insertLe {α : Type} (le : α → α → Bool) (x y : α) :
    ∀ (l : List α), y ∈ insertLe le x l ↔ y = x ∨ y ∈ l := by
  intro l
  induction l with
  | nil => simp [insertLe]
  | cons a t ih =>
    simp only [insertLe]
    split
    · simp [List.mem_cons]
    · simp only [List.mem_cons, ih]
      tauto

theorem mem_sortLe {α : Type} (le : α → α → Bool) (y : α) :
    ∀ (l : List α), y ∈ sortLe le l ↔ y ∈ l := by
  intro l
  induction l with
  | nil => simp [sortLe]
  | cons a t ih => simp [sortLe, mem_insertLe, ih]

theorem length_insertLe {α : Type} (le : α → α → Bool) (x : α) :
    ∀ (l : List α), (insertLe le x l).length = l.length + 1 := by
  intro l
  induction l with
  | nil => rfl
  | cons a t ih =>
    simp only [insertLe]
    split
    · rfl
    · simp [ih]

theorem length_sortLe {α : Type} (le : α → α → Bool) :
    ∀ (l : List α), (sortLe le l).length = l.length := by
  intro l
  induction l with
  | nil => rfl
  | cons a t ih => simp [sortLe, length_insertLe, ih]

theorem leTransform_eq_none_of_not_mem (classes : List String) (c : String)
    (h : c ∉ classes) : leTransform classes c = none := by
  induction classes with
  | nil => rfl
  | cons x xs ih =>
    rw [List.mem_cons, not_or] at h
    obtain ⟨h1, h2⟩ := h
    simp only [leTransform]
    rw [if_neg (by simp [beq_iff_eq]; exact fun hh => h1 hh.symm), ih h2]
    rfl

theorem writeRevenue_time_series (a : Analyzer) (w : Option (Option RegCandidate)) :
    (writeRevenue a w).models.time_series = a.models.time_series := by
  cases w <;> rfl

theorem writeRevenue_price_optimization (a : Analyzer)
    (w : Option (Option RegCandidate)) :
    (writeRevenue a w).models.price_optimization = a.models.price_optimization := by
  cases w <;> rfl

theorem writeRevenue_is_trained (a : Analyzer) (w : Option (Option RegCandidate)) :
    (writeRevenue a w).is_trained = a.is_trained := by
  cases w <;> rfl

theorem writeRevenue_label_encoders (a : Analyzer) (w : Option (Option RegCandidate)) :
    (writeRevenue a w).label_encoders_category = a.label_encoders_category := by
  cases w <;> rfl

/-- Membership preservation of the price-testing fold: the final best price
is either the initial one or one of the folded candidates. -/
theorem priceFold_mem (m : List ℚ → ℚ) (cp cq cr : ℚ) (L : List ℚ) :
    ∀ (ps : List ℚ) (acc : ℚ × ℚ), acc.1 ∈ L → (∀ p ∈ ps, p ∈ L) →
      (ps.foldl (priceStep m cp cq cr) acc).1 ∈ L := by
  intro ps
  induction ps with
  | nil => intro acc h _; simpa using h
  | cons p t ih =>
    intro acc hacc hall
    simp only [List.foldl_cons]
    apply ih
    · simp only [priceStep]
      split
      · split
        · exact hall p (by simp)
        · exact hacc
      · exact hacc
    · intro q hq
      exact hall q (by simp [hq])


theorem writePriceOpt_time_series (a : Analyzer) (w : Option (List ℚ → ℚ)) :
    (writePriceOpt a w).models.time_series = a.models.time_series := by
  cases w <;> rfl

/-! ### Claim theorems -/

/-- C3 counterexample: on a candidate set where both classifier candidates
score held-out accuracy exactly 0 (training data: 11 promoted rows), the
promotion trainer assigns `None` to its slot instead of the first-enumerated
candidate, because its `best_score` starts at 0 and the comparison is
strict.  This falsifies the claim that the trainer always stores the
candidate with the best test-split score with ties broken in favour of the
first-enumerated candidate. -/
theorem C3_counterexample :
    train_promotion_success_model libAccZero
        (prepare_data oneProduct onePromotion elevenEqualSales).1 = .ok (some none) ∧
    some (none : Option ClsFitted) ≠ some (some zeroAccLogistic) :=
  ⟨rfl, by simp⟩

/-- C3 amended: the revenue trainer always stores the first candidate
attaining the maximal held-out test-split score (the characterization does
not mention the cross-validation score, which is computed but unused in the
comparison); the promotion trainer follows the same first-argmax rule
provided some candidate has accuracy strictly above 0, and otherwise stores
`None` in its slot. -/
theorem C3_amended_selection :
    (∀ (lib : MLLib) (data : List FeatureRow), 5 ≤ data.length →
      train_revenue_model lib data =
        some (firstArgmax (fun c => c.testScore) (revenueCandidateList lib data)) ∧
      firstArgmax (fun c => c.testScore) (revenueCandidateList lib data) ≠ none) ∧
    (∀ (lib : MLLib) (data : List FeatureRow) (f1 f2 : ClsFitted),
      10 ≤ (promoRows data).length →
      lib.clsCandidates ((promoRows data).map promoFeatures) (promoLabels data) =
        (.ok f1, .ok f2) →
      train_promotion_success_model lib data =
        .ok (some (if 0 < max f1.accuracy f2.accuracy then
          firstArgmax (fun f => f.accuracy) [f1, f2] else none))) := by
  constructor
  · intro lib data h5
    have key : train_revenue_model lib data =
        some ((selectLoopB (fun c => c.testScore)
          (revenueCandidateList lib data) none none).1) := by
      simp only [train_revenue_model]
      rw [if_neg (by simp only [List.length_map]; omega)]
      rfl
    constructor
    · rw [key, selectLoopB_fst]
      rcases hq : maxOpt (List.map (fun c => c.testScore)
          (revenueCandidateList lib data)) with _ | q
      · exact absurd hq (by rw [revenueCandidateList, List.map_cons, maxOpt_cons]; simp)
      · simp [firstArgmax, hq, ltOptOpt, ltOpt]
    · rw [revenueCandidateList]
      exact firstArgmax_cons_ne_none _ _ _
  · intro lib data f1 f2 h10 hcls
    have key : train_promotion_success_model lib data =
        match promoLoop [(.ok f1 : Except String ClsFitted), .ok f2] none (some 0) with
        | .error e => .error e
        | .ok (best, _) => .ok (some best) := by
      simp only [train_promotion_success_model]
      rw [if_neg (Nat.not_lt.mpr h10), hcls]
    rw [key]
    have hfs : [(.ok f1 : Except String ClsFitted), .ok f2] =
        [f1, f2].map Except.ok := rfl
    rw [hfs, promoLoop_map_ok]
    show Except.ok (some ((selectLoopB (fun f => f.accuracy) [f1, f2] none (some 0)).1)) = _
    rw [selectLoopB_fst]
    have hm2 : maxOpt [f1.accuracy, f2.accuracy] =
        some (max f1.accuracy f2.accuracy) := rfl
    simp [firstArgmax, hm2, ltOptOpt, ltOpt]

/-- C3 witness: the amended selection rule applied to the concrete
eleven-row scenarios. -/
theorem C3_witness :
    (train_revenue_model libAccZero
        (prepare_data oneProduct onePromotion elevenPlainSales).1 =
      some (firstArgmax (fun c => c.testScore) (revenueCandidateList libAccZero
        (prepare_data oneProduct onePromotion elevenPlainSales).1)) ∧
     firstArgmax (fun c => c.testScore) (revenueCandidateList libAccZero
        (prepare_data oneProduct onePromotion elevenPlainSales).1) ≠ none) ∧
    train_promotion_success_model libAccZero
        (prepare_data oneProduct onePromotion elevenEqualSales).1 =
      .ok (some (if 0 < max zeroAccLogistic.accuracy zeroAccForest.accuracy then
        firstArgmax (fun f => f.accuracy) [zeroAccLogistic, zeroAccForest]
        else none)) :=
  ⟨C3_amended_selection.1 libAccZero _ (by decide),
   C3_amended_selection.2 libAccZero _ zeroAccLogistic zeroAccForest (by decide) rfl⟩

/-- C2: when the merged table has fewer than 5 rows, `train_models` returns
without raising, with the models dict and the `is_trained` flag unchanged —
starting from an untrained analyzer, every slot is still untrained. -/
theorem C2_insufficient_data (lib : MLLib) (a : Analyzer)
    (products : List Product) (promotions : List Promotion) (sales : List Sale)
    (h : (prepare_data products promotions sales).1.length < 5) :
    ∃ a2, train_models lib a products promotions sales = .ok a2 ∧
      a2.models = a.models ∧ a2.is_trained = a.is_trained := by
  refine ⟨{ a with label_encoders_category := some (prepare_data products promotions sales).2 },
    ?_, rfl, rfl⟩
  simp only [train_models]
  rw [if_pos h]

/-- C2 witness: a three-row sales table trains nothing and raises nothing. -/
theorem C2_witness :
    ∃ a2, train_models libAccZero {} oneProduct onePromotion threeSales = .ok a2 ∧
      a2.models = ({} : Analyzer).models ∧
      a2.is_trained = ({} : Analyzer).is_trained :=
  C2_insufficient_data libAccZero {} oneProduct onePromotion threeSales (by decide)

/-- C4 counterexample: on 11 promoted rows of equal revenue the median-split
labels are single-class, the logistic fit raises, and the exception
propagates out of `train_models` — the time-series and price slots stay
untrained and `is_trained` stays false, although the same data would have
trained the time-series slot (second conjunct).  This falsifies the claim
that a training-time failure in one slot never prevents the remaining slots
from being trained. -/
theorem C4_counterexample :
    errSlotInfo (train_models libPromoFail {} oneProduct onePromotion
      elevenEqualSales) = some (true, false, false, false) ∧
    (train_time_series_model libPromoFail
      (prepare_data oneProduct onePromotion elevenEqualSales).1).isSome = true :=
  ⟨rfl, rfl⟩

/-- C4 amended: only the time-series trainer recovers its fitting failures
locally (part two: both fits failing leave its slot unwritten and the later
price slot still trains, with `is_trained` set).  An exception raised while
fitting a promotion classifier propagates out of `train_models` and leaves
the time-series slot, the price slot and `is_trained` untouched
(part one). -/
theorem C4_amended_propagation :
    (∀ (lib : MLLib) (a : Analyzer) (products : List Product)
        (promotions : List Promotion) (sales : List Sale) (e : String),
      5 ≤ (prepare_data products promotions sales).1.length →
      10 ≤ (promoRows (prepare_data products promotions sales).1).length →
      (lib.clsCandidates
        ((promoRows (prepare_data products promotions sales).1).map promoFeatures)
        (promoLabels (prepare_data products promotions sales).1)).1 = .error e →
      ∃ a2, train_models lib a products promotions sales = .error (e, a2) ∧
        a2.models.time_series = a.models.time_series ∧
        a2.models.price_optimization = a.models.price_optimization ∧
        a2.is_trained = a.is_trained) ∧
    (∀ (lib : MLLib) (a : Analyzer) (products : List Product)
        (promotions : List Promotion) (sales : List Sale) (e1 e2 : String),
      5 ≤ (prepare_data products promotions sales).1.length →
      (promoRows (prepare_data products promotions sales).1).length < 10 →
      10 ≤ (dailyRevenue (prepare_data products promotions sales).1).length →
      lib.fitARIMA (1, 1, 1)
        ((dailyRevenue (prepare_data products promotions sales).1).map Prod.snd) =
        .error e1 →
      lib.fitExpSmoothing
        ((dailyRevenue (prepare_data products promotions sales).1).map Prod.snd) =
        .error e2 →
      ∃ a2, train_models lib a products promotions sales = .ok a2 ∧
        a2.models.time_series = a.models.time_series ∧
        a2.models.price_optimization.isSome = true ∧
        a2.is_trained = true) := by
  constructor
  · intro lib a products promotions sales e h5 h10 herr
    have hpromo : train_promotion_success_model lib
        (prepare_data products promotions sales).1 = .error e := by
      simp only [train_promotion_success_model]
      rw [if_neg (Nat.not_lt.mpr h10), herr]
      rfl
    refine ⟨writeRevenue
      { a with label_encoders_category := some (prepare_data products promotions sales).2 }
      (train_revenue_model lib (prepare_data products promotions sales).1),
      ?_, ?_, ?_, ?_⟩
    · simp only [train_models]
      rw [if_neg (Nat.not_lt.mpr h5), hpromo]
    · rw [writeRevenue_time_series]
    · rw [writeRevenue_price_optimization]
    · rw [writeRevenue_is_trained]
  · intro lib a products promotions sales e1 e2 h5 h10 hd hA hE
    have hpromo : train_promotion_success_model lib
        (prepare_data products promotions sales).1 = .ok none := by
      simp only [train_promotion_success_model]
      rw [if_pos h10]
    have hts : train_time_series_model lib
        (prepare_data products promotions sales).1 = none := by
      simp only [train_time_series_model]
      rw [if_neg (Nat.not_lt.mpr hd), hA, hE]
    have hpo : train_price_optimization_model lib
        (prepare_data products promotions sales).1 =
        some (lib.fitLinReg
          ((prepare_data products promotions sales).1.map priceOptFeatures)
          ((prepare_data products promotions sales).1.map (fun r => r.revenue))) := by
      simp only [train_price_optimization_model]
      rw [if_neg (by simp only [List.length_map]; omega)]
    have hrun : train_models lib a products promotions sales =
        .ok { writePriceOpt (writeTimeSeries (writePromotion (writeRevenue { a with label_encoders_category := some (prepare_data products promotions sales).2 } (train_revenue_model lib (prepare_data products promotions sales).1)) none) (train_time_series_model lib (prepare_data products promotions sales).1)) (train_price_optimization_model lib (prepare_data products promotions sales).1) with is_trained := true } := by
      simp only [train_models]
      rw [if_neg (Nat.not_lt.mpr h5), hpromo]
    refine ⟨_, hrun, ?_, ?_, rfl⟩
    · rw [hts, hpo]
      simp [writePriceOpt, writeTimeSeries, writePromotion, writeRevenue_time_series]
    · rw [hpo]
      simp [writePriceOpt]

/-- C4 witness: part one applied to the degenerate-label scenario, part two
applied to a scenario where both time-series fits fail. -/
theorem C4_witness :
    (∃ a2, train_models libPromoFail {} oneProduct onePromotion elevenEqualSales =
        .error ("LogisticRegression: the solver needs samples of at least 2 classes",
          a2) ∧
      a2.models.time_series = ({} : Analyzer).models.time_series ∧
      a2.models.price_optimization = ({} : Analyzer).models.price_optimization ∧
      a2.is_trained = ({} : Analyzer).is_trained) ∧
    (∃ a2, train_models libBothTSFail {} oneProduct onePromotion elevenPlainSales =
        .ok a2 ∧
      a2.models.time_series = ({} : Analyzer).models.time_series ∧
      a2.models.price_optimization.isSome = true ∧
      a2.is_trained = true) :=
  ⟨C4_amended_propagation.1 libPromoFail {} oneProduct onePromotion elevenEqualSales _
      (by decide) (by decide) rfl,
   C4_amended_propagation.2 libBothTSFail {} oneProduct onePromotion elevenPlainSales
      "ARIMA failed to converge" "ExponentialSmoothing failed to converge"
      (by decide) (by decide) (by decide) rfl rfl⟩

/-- C10: after a completed `train_models` run on a merged table with at
least 5 rows, `is_trained` is true unconditionally (part one); the revenue
inference checks the presence of its own slot key and fails with an
untrained error whenever the key is absent, whatever `is_trained` says
(part two); and a concrete completed run exists whose promotion slot was
never stored (no promoted rows) while `is_trained` is true (part three). -/
theorem C10_aggregate_flag :
    (∀ (lib : MLLib) (a : Analyzer) (products : List Product)
        (promotions : List Promotion) (sales : List Sale) (a2 : Analyzer),
      5 ≤ (prepare_data products promotions sales).1.length →
      train_models lib a products promotions sales = .ok a2 →
      a2.is_trained = true) ∧
    (∀ (a : Analyzer) (price discount quantity : ℚ) (category : String),
      a.models.revenue_prediction = none →
      revenue_prediction a price discount quantity category =
        .error PredError.untrained) ∧
    (∃ a2, train_models libAccZero {} oneProduct onePromotion elevenPlainSales =
        .ok a2 ∧ a2.is_trained = true ∧ a2.models.promotion_success = none) := by
  refine ⟨?_, ?_, ?_⟩
  · intro lib a products promotions sales a2 h5 htr
    simp only [train_models] at htr
    rw [if_neg (Nat.not_lt.mpr h5)] at htr
    rcases hp : train_promotion_success_model lib
        (prepare_data products promotions sales).1 with e | w
    · rw [hp] at htr
      simp at htr
    · rw [hp] at htr
      injection htr with h
      rw [← h]
  · intro a price discount quantity category h
    simp [revenue_prediction, h]
  · exact ⟨_, rfl, rfl, rfl⟩

/-- C10 witness: the concrete no-promotion run reports `is_trained = true`
with the promotion slot absent, and revenue inference on a fresh analyzer
fails with the untrained error. -/
theorem C10_witness :
    okInfo (train_models libAccZero {} oneProduct onePromotion elevenPlainSales) =
      some (true, false) ∧
    revenue_prediction {} 100 0 1 "Electronics" = .error PredError.untrained := by
  constructor
  · obtain ⟨a2, h1, h2, h3⟩ := C10_aggregate_flag.2.2
    have h4 : a2.is_trained = true :=
      C10_aggregate_flag.1 libAccZero {} oneProduct onePromotion elevenPlainSales a2
        (by decide) h1
    rw [h1]
    simp [okInfo, h4, h3]
  · exact C10_aggregate_flag.2.1 {} 100 0 1 "Electronics" rfl


/-- C1 counterexample: the revenue inference returns the raw model output
with no clamping.  With a realisable trained linear model (weight 1 on the
price feature, intercept -200) and the valid input price 100, discount 0,
quantity 1, category Electronics (seen at training), the returned revenue is
-100, which is negative and differs from max(0, prediction) = 0.  This
falsifies the claim that the result is clamped to max(0, prediction) and
hence non-negative. -/
theorem C1_counterexample :
    revenue_prediction negAnalyzer 100 0 1 "Electronics" = .ok (-100) ∧
    ¬ (0 ≤ (-100 : ℚ)) ∧ max 0 (-100 : ℚ) ≠ -100 := by
  refine ⟨?_, by norm_num, by norm_num⟩
  norm_num [revenue_prediction, negAnalyzer, negModel, leTransform, linPredict]

/-- C1 amended: with a trained revenue model and a category known to the
stored encoder, `revenue_prediction` returns exactly the raw prediction of
the stored model on the assembled feature vector [price, price * discount /
100, quantity, category code, has_promotion] — no clamping is applied, so
the result can be negative. -/
theorem C1_amended_raw_output (a : Analyzer) (m : RegCandidate)
    (classes : List String) (price discount quantity : ℚ) (category : String)
    (i : Nat) (hs : a.models.revenue_prediction = some (some m))
    (he : a.label_encoders_category = some classes)
    (hc : leTransform classes category = some i) :
    revenue_prediction a price discount quantity category =
      .ok (m.predict [price, price * discount / 100, quantity, (i : ℚ),
        if 0 < discount then 1 else 0]) := by
  simp only [revenue_prediction, hs, he, hc]

/-- C1 witness: the amended statement applied to the concrete negative-output
scenario. -/
theorem C1_witness :
    revenue_prediction negAnalyzer 100 0 1 "Electronics" =
      .ok (negModel.predict [100, 100 * 0 / 100, 1, ((0 : Nat) : ℚ),
        if (0 : ℚ) < 0 then 1 else 0]) :=
  C1_amended_raw_output negAnalyzer negModel ["Electronics"] 100 0 1
    "Electronics" 0 rfl rfl rfl

/-- C5 counterexample: on 10 sales spread over the observed days
0,...,8,10 (day 9 has no sales), the series handed to the time-series fit
has exactly the 10 observed dates — day 9 is absent and the series differs
from the complete calendar 0,...,10 of the min-max range, which has 11 days.
This falsifies the claim that the fitted series is reindexed to one entry
per calendar day with missing days zero-filled. -/
theorem C5_counterexample :
    ((dailyRevenue (prepare_data oneProduct onePromotion gapSales).1).map
      Prod.fst = gapDates) ∧
    (9 ∉ (dailyRevenue (prepare_data oneProduct onePromotion gapSales).1).map
      Prod.fst) ∧
    ((dailyRevenue (prepare_data oneProduct onePromotion gapSales).1).length = 10) ∧
    ((dailyRevenue (prepare_data oneProduct onePromotion gapSales).1).map
      Prod.fst ≠ List.range 11) :=
  ⟨by decide, by decide, by decide, by decide⟩

theorem map_fst_pair {β : Type} (g : Nat → β) :
    ∀ (l : List Nat), (l.map (fun d => (d, g d))).map Prod.fst = l := by
  intro l
  induction l with
  | nil => rfl
  | cons a t ih => simp [ih]

theorem map_snd_pair {β : Type} (g : Nat → β) :
    ∀ (l : List Nat), (l.map (fun d => (d, g d))).map Prod.snd = l.map g := by
  intro l
  induction l with
  | nil => rfl
  | cons a t ih => simp [ih]

/-- C5 amended: the series fitted by the time-series trainer contains
exactly the observed sale dates (no calendar reindexing, no zero-fill): a
day is in the series iff some sale happened on it, the series has one entry
per distinct observed date, and each entry's value is the summed revenue of
its date. -/
theorem C5_amended_observed_dates (data : List FeatureRow) (d : Nat) :
    (d ∈ (dailyRevenue data).map Prod.fst ↔ d ∈ data.map (fun r => r.date)) ∧
    (dailyRevenue data).length = (data.map (fun r => r.date)).dedup.length ∧
    (dailyRevenue data).map Prod.snd =
      ((dailyRevenue data).map Prod.fst).map
        (fun d2 => ((data.filter (fun r => r.date == d2)).map
          (fun r => r.revenue)).sum) := by
  have h1 : (dailyRevenue data).map Prod.fst =
      sortLe (fun a b => decide (a ≤ b)) (data.map (fun r => r.date)).dedup := by
    rw [dailyRevenue]
    exact map_fst_pair _ _
  refine ⟨?_, ?_, ?_⟩
  · rw [h1, mem_sortLe, List.mem_dedup]
  · simp [dailyRevenue, length_sortLe]
  · rw [h1, dailyRevenue]
    exact map_snd_pair _ _

/-- C6: a revenue inference whose category is not among the stored encoder
classes fails with the unseen-category error (the `LabelEncoder.transform`
ValueError), whatever the stored model is — the unseen category is never
silently mapped to a default code when an encoder exists. -/
theorem C6_unseen_category (a : Analyzer) (stored : Option RegCandidate)
    (classes : List String) (price discount quantity : ℚ) (category : String)
    (hs : a.models.revenue_prediction = some stored)
    (he : a.label_encoders_category = some classes)
    (hc : category ∉ classes) :
    revenue_prediction a price discount quantity category =
      .error PredError.unseenCategory := by
  simp only [revenue_prediction, hs, he,
    leTransform_eq_none_of_not_mem classes category hc]

/-- C6 witness: the category Furniture was never seen at training and the
inference returns the unseen-category error. -/
theorem C6_witness :
    revenue_prediction negAnalyzer 100 0 1 "Furniture" =
      .error PredError.unseenCategory :=
  C6_unseen_category negAnalyzer (some negModel) ["Electronics"] 100 0 1
    "Furniture" rfl rfl (by decide)

/-- C7: on a daily series with at least 10 distinct days the forecaster
first attempts the ARIMA(1,1,1) fit and stores it when it succeeds; the
exponential-smoothing fit runs exactly when the ARIMA fit raises, and is
stored when it succeeds; when both fits raise, the time-series slot stays
unwritten. -/
theorem C7_forecaster_fallback (lib : MLLib) (data : List FeatureRow)
    (h : 10 ≤ (dailyRevenue data).length) :
    (∀ m, lib.fitARIMA (1, 1, 1) ((dailyRevenue data).map Prod.snd) = .ok m →
      train_time_series_model lib data = some (.arima m)) ∧
    (∀ e m, lib.fitARIMA (1, 1, 1) ((dailyRevenue data).map Prod.snd) =
        .error e →
      lib.fitExpSmoothing ((dailyRevenue data).map Prod.snd) = .ok m →
      train_time_series_model lib data = some (.expsmooth m)) ∧
    (∀ e1 e2, lib.fitARIMA (1, 1, 1) ((dailyRevenue data).map Prod.snd) =
        .error e1 →
      lib.fitExpSmoothing ((dailyRevenue data).map Prod.snd) = .error e2 →
      train_time_series_model lib data = none) := by
  refine ⟨?_, ?_, ?_⟩
  · intro m hA
    simp only [train_time_series_model]
    rw [if_neg (Nat.not_lt.mpr h), hA]
  · intro e m hA hE
    simp only [train_time_series_model]
    rw [if_neg (Nat.not_lt.mpr h), hA, hE]
  · intro e1 e2 hA hE
    simp only [train_time_series_model]
    rw [if_neg (Nat.not_lt.mpr h), hA, hE]

/-- C7 witness: the three fallback branches exercised on the 10-day series,
with libraries whose ARIMA fit succeeds, whose ARIMA fit alone raises, and
whose two fits both raise. -/
theorem C7_witness :
    train_time_series_model libAccZero
      (prepare_data oneProduct onePromotion gapSales).1 =
      some (.arima { forecastFn := fun _ => [] }) ∧
    train_time_series_model libArimaFail
      (prepare_data oneProduct onePromotion gapSales).1 =
      some (.expsmooth { forecastFn := fun _ => [] }) ∧
    train_time_series_model libBothTSFail
      (prepare_data oneProduct onePromotion gapSales).1 = none :=
  ⟨(C7_forecaster_fallback libAccZero _ (by decide)).1 _ rfl,
   (C7_forecaster_fallback libArimaFail _ (by decide)).2.1
     "ARIMA failed to converge" _ rfl rfl,
   (C7_forecaster_fallback libBothTSFail _ (by decide)).2.2
     "ARIMA failed to converge" "ExponentialSmoothing failed to converge" rfl rfl⟩

/-- C8: whenever the price-optimization slot is trained, the recommended
price returned by `price_optimization` is one of the five generated
candidates current_price times 0.9, 0.95, 1.0, 1.05, 1.1 — never an
out-of-band value (the running best starts at the current price, which is
itself the third candidate, and is only ever replaced by a folded
candidate). -/
theorem C8_recommendation_in_candidates (a : Analyzer) (m : List ℚ → ℚ)
    (cp cq cr bp br : ℚ) (hm : a.models.price_optimization = some m)
    (hr : price_optimization a cp cq cr = some (bp, br)) :
    bp ∈ testPrices cp := by
  simp only [price_optimization, hm] at hr
  injection hr with h
  have hmem := priceFold_mem m cp cq cr (testPrices cp) (testPrices cp)
    (cp, cr) (by simp [testPrices]) (fun p hp => hp)
  rw [h] at hmem
  exact hmem

/-- C8 witness: with a trained model predicting 0 everywhere, the
recommendation for current price 100 is 100 itself, one of the five
candidates. -/
theorem C8_witness : (100 : ℚ) ∈ testPrices 100 :=
  C8_recommendation_in_candidates aPriceW (fun _ => 0) 100 10 1000 100 1000 rfl
    (by norm_num [price_optimization, aPriceW, testPrices, priceStep, List.foldl])

/-- C9 counterexample: on a promoted sale (price 100, discount 20 percent,
revenue 160) the derived row has discount_amount = 20 but net_revenue = 160,
the unchanged revenue — not revenue minus discount_amount, which would be
140.  This falsifies the claim that net_revenue equals revenue minus
discount_amount for every row. -/
theorem C9_counterexample :
    ((prepare_data oneProduct onePromotion oneSale).1.map
      (fun r => (r.net_revenue, r.discount_amount))) = [(160, some 20)] ∧
    ¬ ((160 : ℚ) = 160 - 20) := by
  refine ⟨?_, by norm_num⟩
  norm_num [prepare_data, oneProduct, onePromotion, oneSale, leClasses,
    leTransform, sortLe, insertLe, List.dedup]

/-- C9 amended: in every feature table built by `prepare_data`, the derived
net_revenue column equals the revenue column unchanged (the source assigns
`data['net_revenue'] = data['revenue']`; the discount is not subtracted). -/
theorem C9_amended_net_is_revenue (products : List Product)
    (promotions : List Promotion) (sales : List Sale) :
    (prepare_data products promotions sales).1.map (fun r => r.net_revenue) =
      (prepare_data products promotions sales).1.map (fun r => r.revenue) := by
  simp only [prepare_data]
  rw [List.map_map, List.map_map]
  congr 1

end MarketingModel
